import Mathlib

/-!
Verification development for the aiops-data-collector repository.

The repository has two source files:
  * `src/workers.py` — the "workers" generation: `_retryable`,
    `query_main_collection`, `query_sub_collection`, `download_job` with the
    inner `worker_clustering` / `worker_topology` functions.
  * `src/collector/topological_inventory.py` — the collector generation:
    `create_tenant`, `_update_fk`, `_collect_data`, `_query_main_collection`,
    `_query_sub_collection`, `worker`, `topological_inventory_data`.

The network is modelled as an environment `Net`: a function from HTTP method,
URL, request headers and attempt number to the outcome of that attempt
(`none` = transport error or non-success status, `some page` = a successful
response whose parsed JSON body is `page`).  JSON rows are modelled as
association lists from field name to (string) field value; the Python `while`
loops over pagination links are modelled with an explicit fuel argument, and a
distinguished error `Err.fuelOut` marks the (diverging) runs that exhaust it.

`collector/utils.py`, `collector/env.py` and the YAML configuration files are
not part of the provided sources; they are modelled from the spec where needed
(see the doc comments on `utils_retryable` and `Env`).
-/

set_option autoImplicit false

namespace Aiops

/-- A JSON row: an insertion-ordered mapping from field name to field value
(field values that the claims inspect are strings: ids and foreign keys). -/
abbrev Row := List (String × String)

/-- HTTP request headers, as an ordered name/value mapping. -/
abbrev Headers := List (String × String)

/-- First-match lookup in an ordered mapping (Python `d[k]` / `d.get(k)`). -/
def lookupEntry {α : Type} : List (String × α) → String → Option α
  | [], _ => none
  | (k, v) :: rest, key => if k = key then some v else lookupEntry rest key

/-- Python `d[k] = v` on a dict: replace the value in place if the key exists,
append the pair otherwise. -/
def setEntry {α : Type} : List (String × α) → String → α → List (String × α)
  | [], key, v => [(key, v)]
  | (k, w) :: rest, key, v =>
      if k = key then (key, v) :: rest else (k, w) :: setEntry rest key v

/-- The parsed JSON body of a list-endpoint response:
`{ "data": [Row, ...], "links": { "next": <path or absent> } }`.
Responses whose body is never read (POST responses) reuse this type. -/
structure Page where
  data : List Row
  next : Option String
deriving DecidableEq

/-- Errors of the embedding.  `requestFailed` models both
`requests.HTTPError('All attempts failed')` (workers.py) and
`utils.RetryFailedError` (collector); `dataMissing` models
`utils.DataMissingError`; `keyError` models a Python `KeyError` on a dict
lookup; `fuelOut` marks a pagination walk that exhausted its fuel (a run that
would not terminate in Python). -/
inductive Err where
  | requestFailed
  | dataMissing
  | keyError
  | fuelOut
deriving DecidableEq

/-- The network environment: method → url → request headers → attempt number →
outcome of that single attempt (`none` = transport error / non-2xx status). -/
abbrev Net := String → String → Headers → Nat → Option Page

/-- `workers.py` line 14: `MAX_RETRIES = 3`. -/
def MAX_RETRIES : Nat := 3

/-- The attempt loop shared by the retry wrappers: try attempts `i`,
`i + 1`, ... while fuel lasts; return the first successful response together
with the number of attempts consumed, or `requestFailed` after the last
attempt fails (`raise requests.HTTPError('All attempts failed')`). -/
def retry_loop (f : Nat → Option Page) : Nat → Nat → Except Err Page × Nat
  | 0, i => (.error .requestFailed, i)
  | fuel + 1, i =>
      match f i with
      | some r => (.ok r, i + 1)
      | none => retry_loop f fuel (i + 1)

/-- `workers.py` `_retryable(method, url, ...)`: up to `MAX_RETRIES` immediate
attempts of the same call; the first success is returned, and
`requests.HTTPError` is raised when every attempt failed.  The second
component is the number of attempts that were issued. -/
def _retryable (net : Net) (method url : String) (hd : Headers) :
    Except Err Page × Nat :=
  retry_loop (net method url hd) MAX_RETRIES 0

/-- Modelled from the spec: `collector/utils.py` (the `utils.retryable`
request wrapper used by `collector/topological_inventory.py`) is not under
`src/`.  Per spec §4.1, it executes one HTTP call with a fixed number of
immediate attempts (observed default: 3) and fails with the retry-exhaustion
error (`utils.RetryFailedError`, here `Err.requestFailed`) after all attempts
have failed — the same behaviour as `workers._retryable`. -/
def utils_retryable (net : Net) (method url : String) (hd : Headers) :
    Except Err Page × Nat :=
  retry_loop (net method url hd) MAX_RETRIES 0

/-- The pagination `while` loop shared by `query_main_collection`,
`query_sub_collection` (modulo foreign-key stamping) and `_collect_data`:
`while out['links'].get('next'): resp = retryable('get', host + next); ...`.
`re nxt` performs the (retry-wrapped) GET of the server-relative path `nxt`;
`acc` is the data collected so far, `g` the number of successful GETs so far.
The loop stops only when a page carries no `next` pointer; the fuel argument
makes the recursion well-founded, and exhausting it yields `Err.fuelOut`. -/
def pages_loop (re : String → Except Err Page) :
    Nat → List Row → Nat → Option String → Except Err (List Row × Nat)
  | _, acc, g, none => .ok (acc, g)
  | 0, _, _, some _ => .error .fuelOut
  | fuel + 1, acc, g, some nxt =>
      match re nxt with
      | .error e => .error e
      | .ok out => pages_loop re fuel (acc ++ out.data) (g + 1) out.next

/-- A successful response chain: starting from the pagination pointer
`start`, the pages `ps` are fetched in order by `re` (each page's `next`
field feeding the following fetch), leaving the pointer `stop` after the last
listed page.  `chainPages re start ps none` is a complete chain ending at a
page with no `next` pointer; `chainPages re start ps (some u)` is a chain
whose traversal will next fetch `u`. -/
def chainPages (re : String → Except Err Page) :
    Option String → List Page → Option String → Bool
  | start, [], stop => decide (start = stop)
  | some nxt, p :: rest, stop =>
      (match re nxt with
       | .ok q => decide (q = p)
       | .error _ => false)
      && chainPages re p.next rest stop
  | none, _ :: _, _ => false

/-! ## collector/topological_inventory.py — pagination and query plan -/

/-- One entry of the `SERVICES_URL` mapping: a service host and API path. -/
structure Service where
  host : String
  path : String
deriving DecidableEq

/-- Modelled from the spec: `collector/env.py` is not under `src/`; it holds
the deployment configuration (spec §6 external collaborators): the
`ALL_TENANTS` broadcast flag and the host/path pairs for the SOURCES,
TOPOLOGICAL and TOPOLOGICAL_INTERNAL services.  It is modelled as an explicit
read-only parameter record. -/
structure Env where
  ALL_TENANTS : Bool
  SOURCES_HOST : String
  SOURCES_PATH : String
  TOPOLOGICAL_INVENTORY_HOST : String
  TOPOLOGICAL_INVENTORY_PATH : String
  TOPOLOGICAL_INTERNAL_PATH : String
deriving DecidableEq

/-- `SERVICES_URL`: a `defaultdict` with explicit entries for `SOURCES` and
`TOPOLOGICAL_INTERNAL`; every other key (including a missing `service` key,
i.e. `none`) falls back to the TOPOLOGICAL host/path default. -/
def SERVICES_URL (env : Env) : Option String → Service
  | some "SOURCES" =>
      { host := env.SOURCES_HOST, path := env.SOURCES_PATH }
  | some "TOPOLOGICAL_INTERNAL" =>
      { host := env.TOPOLOGICAL_INVENTORY_HOST,
        path := env.TOPOLOGICAL_INTERNAL_PATH }
  | _ =>
      { host := env.TOPOLOGICAL_INVENTORY_HOST,
        path := env.TOPOLOGICAL_INVENTORY_PATH }

/-- One entry of the declarative query configuration
(`topological_queries.yml`, an external collaborator per spec §6): target
service, main-collection name, optional sub-collection name, optional
foreign-key field name.  Optional fields model YAML `null` values. -/
structure QuerySpec where
  service : Option String
  main_collection : String
  sub_collection : Option String
  foreign_key : Option String
deriving DecidableEq

/-- Python truthiness of an optional string: `None` and `''` are falsy. -/
def truthy : Option String → Bool
  | none => false
  | some s => s != ""

/-- `_update_fk(page_data, fk_name, fk_id)`: when `not (fk_name and fk_id)`
(either is `None` or empty) the rows are returned unchanged; otherwise every
row gains/overwrites the field `fk_name := fk_id`. -/
def _update_fk (page_data : List Row) :
    Option String → Option String → List Row
  | some n, some i =>
      if n = "" ∨ i = "" then page_data
      else page_data.map (fun r => setEntry r n i)
  | _, _ => page_data

/-- `_collect_data(host, url, headers)`: GET the first page at
`{host}/{path}/{url}`, then walk the `links.next` chain (each pointer
resolved server-relative against the host alone), concatenating the `data`
arrays.  The `Nat` component counts the successful (retry-wrapped) GETs,
mirroring the `get_successes` metric. -/
def _collect_data (net : Net) (fuel : Nat) (host : Service) (url : String)
    (hd : Headers) : Except Err (List Row × Nat) :=
  match (utils_retryable net "get" (host.host ++ "/" ++ host.path ++ "/" ++ url) hd).1 with
  | .error e => .error e
  | .ok resp =>
      pages_loop (fun nxt => (utils_retryable net "get" (host.host ++ nxt) hd).1)
        fuel resp.data 1 resp.next

/-- `_query_main_collection(entity, headers)`: `_collect_data` on the
entity's main collection at the entity's service. -/
def _query_main_collection (net : Net) (fuel : Nat) (env : Env)
    (entity : QuerySpec) (hd : Headers) : Except Err (List Row × Nat) :=
  _collect_data net fuel (SERVICES_URL env entity.service)
    entity.main_collection hd

/-- The `for item in data[main_collection]` loop of `_query_sub_collection`:
for each parent row in order, fetch `{main}/{item['id']}/{sub}` via
`_collect_data` and append `_update_fk(partial_data, foreign_key, item['id'])`
to the aggregate.  A missing `id` field is a Python `KeyError`. -/
def sub_items_loop (net : Net) (fuel : Nat) (svc : Service)
    (main sub : String) (fk : Option String) (hd : Headers) :
    List Row → Except Err (List Row × Nat)
  | [] => .ok ([], 0)
  | item :: rest =>
      match lookupEntry item "id" with
      | none => .error .keyError
      | some pid =>
          match _collect_data net fuel svc (main ++ "/" ++ pid ++ "/" ++ sub) hd with
          | .error e => .error e
          | .ok (pdata, g1) =>
              match sub_items_loop net fuel svc main sub fk hd rest with
              | .error e => .error e
              | .ok (restData, g2) =>
                  .ok (_update_fk pdata fk (some pid) ++ restData, g1 + g2)

/-- `_query_sub_collection(entity, data, headers)`: read the entity's
`main_collection`, `sub_collection` and `foreign_key` fields, look up the
already-collected parent rows `data[main_collection]` (a `KeyError` when the
main collection was not collected earlier) and run the per-parent loop.
(The `none` branch for `sub_collection` models the `KeyError` of
`entity['sub_collection']`; callers only reach this function when the field
is truthy.) -/
def _query_sub_collection (net : Net) (fuel : Nat) (env : Env)
    (entity : QuerySpec) (data : List (String × List Row)) (hd : Headers) :
    Except Err (List Row × Nat) :=
  match entity.sub_collection with
  | none => .error .keyError
  | some sub =>
      match lookupEntry data entity.main_collection with
      | none => .error .keyError
      | some items =>
          sub_items_loop net fuel (SERVICES_URL env entity.service)
            entity.main_collection sub entity.foreign_key hd items

/-- Dispatch of one entity query in `topological_inventory_data`:
`if query_spec.get('sub_collection'): _query_sub_collection(...) else:
_query_main_collection(...)`. -/
def query_entity_data (net : Net) (fuel : Nat) (env : Env)
    (query_spec : QuerySpec) (data : List (String × List Row)) (hd : Headers) :
    Except Err (List Row × Nat) :=
  if truthy query_spec.sub_collection then
    _query_sub_collection net fuel env query_spec data hd
  else
    _query_main_collection net fuel env query_spec hd

/-- Outcome of the `for entity in APP_CONFIG` loop of
`topological_inventory_data`: either all entities were collected (`ok`, with
the collected data and the list of entities whose query was executed), or a
`RetryFailedError` / `DataMissingError` was caught — `get_errors` is
incremented and the function returns early (`aborted`) — or an exception
outside the `except` clause propagates (`crashed`). -/
inductive QRes where
  | ok (data : List (String × List Row)) (queried : List String)
  | aborted (queried : List String)
  | crashed (e : Err)
deriving DecidableEq

/-- The `for entity in APP_CONFIG` loop: look the entity up in `QUERIES`
(`KeyError` when absent), run the entity query, raise `DataMissingError`
(`'Insufficient data.'`) when it resolved to zero rows; `RetryFailedError`
and `DataMissingError` are caught and abort the run, anything else
propagates.  On success the rows are stored under the entity's name
(`data['data'][entity] = all_data`) and the loop continues. -/
def run_queries (net : Net) (fuel : Nat) (env : Env)
    (queries : String → Option QuerySpec) (hd : Headers) :
    List String → List (String × List Row) → List String → QRes
  | [], data, queried => .ok data queried
  | entity :: rest, data, queried =>
      match queries entity with
      | none => .crashed .keyError
      | some query_spec =>
          match query_entity_data net fuel env query_spec data hd with
          | .error .requestFailed => .aborted (queried ++ [entity])
          | .error e => .crashed e
          | .ok (all_data, _) =>
              if all_data.isEmpty then .aborted (queried ++ [entity])
              else
                run_queries net fuel env queries hd rest
                  (setEntry data entity all_data) (queried ++ [entity])

/-- The POST body built by `topological_inventory_data` /
`worker_topology`: `{ 'id': source_id, 'data': { entity: rows, ... } }`. -/
structure Payload where
  id : String
  data : List (String × List Row)
deriving DecidableEq

/-- Observable outcome of one `topological_inventory_data` run:
whether (and with which body) the downstream POST was attempted, and the
`post_successes` / `post_errors` / `get_errors` counter increments, plus the
entities whose query was actually executed. -/
structure TIOutcome where
  posted : Option Payload
  post_successes : Nat
  post_errors : Nat
  get_errors : Nat
  queried : List String
deriving DecidableEq

/-- `topological_inventory_data(_, source_id, dest, headers, thread)`:
return early when `APP_CONFIG` is falsy; run the query loop; on a caught
`RetryFailedError` / `DataMissingError` return with `get_errors` incremented
and no POST; otherwise POST the payload to `dest` via `utils.retryable`,
catching `RetryFailedError` (incrementing `post_errors`) so that the POST
never raises to the caller. -/
def topological_inventory_data (net : Net) (fuel : Nat) (env : Env)
    (queries : String → Option QuerySpec) (app_config : List String)
    (source_id dest : String) (hd : Headers) : Except Err TIOutcome :=
  if app_config.isEmpty then
    .ok { posted := none, post_successes := 0, post_errors := 0,
          get_errors := 0, queried := [] }
  else
    match run_queries net fuel env queries hd app_config [] [] with
    | .crashed e => .error e
    | .aborted q =>
        .ok { posted := none, post_successes := 0, post_errors := 0,
              get_errors := 1, queried := q }
    | .ok d q =>
        match (utils_retryable net "post" dest hd).1 with
        | .ok _ =>
            .ok { posted := some { id := source_id, data := d },
                  post_successes := 1, post_errors := 0, get_errors := 0,
                  queried := q }
        | .error _ =>
            .ok { posted := some { id := source_id, data := d },
                  post_successes := 0, post_errors := 1, get_errors := 0,
                  queried := q }

/-! ## collector/topological_inventory.py — tenants and fan-out -/

/-- UTF-8 encoding of one Unicode code point, as byte values. -/
def utf8EncodeChar (n : Nat) : List Nat :=
  if n < 128 then [n]
  else if n < 2048 then [192 + n / 64, 128 + n % 64]
  else if n < 65536 then
    [224 + n / 4096, 128 + (n / 64) % 64, 128 + n % 64]
  else
    [240 + n / 262144, 128 + (n / 4096) % 64, 128 + (n / 64) % 64,
     128 + n % 64]

/-- UTF-8 encoding of a string (`str.encode()` in Python), as byte values. -/
def utf8Bytes (s : String) : List Nat :=
  s.data.flatMap (fun c => utf8EncodeChar c.toNat)

/-- The standard base64 alphabet. -/
def b64_alphabet : List Char :=
  "ABCDEFGHIJKLMNOPQRSTUVWXYZabcdefghijklmnopqrstuvwxyz0123456789+/".data

/-- The base64 digit for a 6-bit value. -/
def b64_char (n : Nat) : Char := b64_alphabet.getD n '?'

/-- Standard base64 encoding (`base64.b64encode`) of a byte sequence,
with `=` padding. -/
def base64Encode : List Nat → List Char
  | [] => []
  | [a] => [b64_char (a / 4), b64_char (a % 4 * 16), '=', '=']
  | [a, b] =>
      [b64_char (a / 4), b64_char (a % 4 * 16 + b / 16),
       b64_char (b % 16 * 4), '=']
  | a :: b :: c :: rest =>
      b64_char (a / 4) :: b64_char (a % 4 * 16 + b / 16) ::
        b64_char (b % 16 * 4 + c / 64) :: b64_char (c % 64) ::
        base64Encode rest

/-- `json.dumps` escaping for the characters that can occur in an account
identifier (backslash and double quote; control characters, which `json.dumps`
also escapes, do not occur in account numbers). -/
def jsonEscapeChar (c : Char) : List Char :=
  if c = '\\' then ['\\', '\\']
  else if c = '"' then ['\\', '"']
  else [c]

/-- `json.dumps(dict(identity=dict(account_number=acct)))` with the default
separators: the exact serialized text of the identity object. -/
def json_dumps_identity (acct : String) : String :=
  "\x7b\"identity\": \x7b\"account_number\": \"" ++
    String.mk (acct.data.flatMap jsonEscapeChar) ++ "\"\x7d\x7d"

/-- `Tenant = namedtuple('Tenant', ('account_number', 'headers'))`. -/
structure Tenant where
  account_number : String
  headers : Headers
deriving DecidableEq

/-- `create_tenant(account_number)`: base64-encode the serialized identity
object and carry it under the `x-rh-identity` header. -/
def create_tenant (account_number : String) : Tenant :=
  { account_number := account_number,
    headers := [("x-rh-identity",
      String.mk (base64Encode (utf8Bytes (json_dumps_identity account_number))))] }

/-- `acct_info`: the per-job account data (`b64_identity`, `account_id`). -/
structure AcctInfo where
  b64_identity : String
  account_id : String
deriving DecidableEq

/-- `[create_tenant(t["external_tenant"]) for t in resp]` — a `KeyError`
when a discovered tenant row lacks the `external_tenant` field. -/
def tenant_rows_to_tenants : List Row → Except Err (List Tenant)
  | [] => .ok []
  | r :: rest =>
      match lookupEntry r "external_tenant" with
      | none => .error .keyError
      | some t =>
          match tenant_rows_to_tenants rest with
          | .error e => .error e
          | .ok ts => .ok (create_tenant t :: ts)

/-- The `for tenant in tenants` loop of `worker`: run
`topological_inventory_data` with the tenant's headers, then
`utils.set_processed(tenant.account_number)` (modelled by collecting the
processed account numbers).  `topological_inventory_data` catches
`RetryFailedError` / `DataMissingError` internally, so only exceptions
outside that `except` clause stop the loop. -/
def worker_loop (net : Net) (fuel : Nat) (env : Env)
    (queries : String → Option QuerySpec) (app_config : List String)
    (source_id dest : String) :
    List Tenant → Except Err (List TIOutcome × List String)
  | [] => .ok ([], [])
  | t :: rest =>
      match topological_inventory_data net fuel env queries app_config
          source_id dest t.headers with
      | .error e => .error e
      | .ok o =>
          match worker_loop net fuel env queries app_config source_id dest rest with
          | .error e => .error e
          | .ok (os, ps) => .ok (o :: os, t.account_number :: ps)

/-- The observable outcome of one `worker` run: the expanded tenant list,
the per-tenant outcomes in order, and the accounts marked processed. -/
structure WorkerOutcome where
  tenants : List Tenant
  results : List TIOutcome
  processed : List String
deriving DecidableEq

/-- `worker(_, source_id, dest, acct_info)`: tenant fan-out.  In broadcast
mode (`ALL_TENANTS`), fetch the internal `tenants` discovery endpoint via
`_collect_data` (uncaught on failure) and build one `Tenant` per discovered
`external_tenant` id; otherwise build a single `Tenant` from
`acct_info['account_id']`.  Then run the per-tenant loop. -/
def worker (net : Net) (fuel : Nat) (env : Env)
    (queries : String → Option QuerySpec) (app_config : List String)
    (source_id dest : String) (acct_info : AcctInfo) :
    Except Err WorkerOutcome :=
  match (if env.ALL_TENANTS then
      match _collect_data net fuel (SERVICES_URL env (some "TOPOLOGICAL_INTERNAL"))
          "tenants" [("x-rh-identity", acct_info.b64_identity)] with
      | .error e => .error e
      | .ok (rows, _) => tenant_rows_to_tenants rows
    else .ok [create_tenant acct_info.account_id] : Except Err (List Tenant)) with
  | .error e => .error e
  | .ok tenants =>
      match worker_loop net fuel env queries app_config source_id dest tenants with
      | .error e => .error e
      | .ok (results, processed) =>
          .ok { tenants := tenants, results := results, processed := processed }

/-! ## workers.py — the older worker generation -/

/-- Python `str(x)` for an optional string inserted into an f-string:
`None` renders as `"None"`. -/
def optStr : Option String → String
  | none => "None"
  | some s => s

/-- `query_main_collection(host, endpoint, main_collection, query_string)`:
first GET of `{host}{endpoint}/{main_collection}` with
`params={query_string: ''}` (rendered here as a `?query_string=` suffix),
then the pagination loop over `{host}{next}`.  The `Nat` counts successful
GETs (`get_successes`). -/
def query_main_collection (net : Net) (fuel : Nat)
    (host endpoint main_collection query_string : String) :
    Except Err (List Row × Nat) :=
  match (_retryable net "get"
      (host ++ endpoint ++ "/" ++ main_collection ++ "?" ++ query_string ++ "=")
      []).1 with
  | .error e => .error e
  | .ok out =>
      pages_loop (fun nxt => (_retryable net "get" (host ++ nxt) []).1)
        fuel out.data 1 out.next

/-- The inner pagination loop of `query_sub_collection`: like `pages_loop`
but every page's rows are stamped with `row[foreign_key] = item['id']`
before being appended. -/
def sub_pages_loop (re : String → Except Err Page) (fk pid : String) :
    Nat → List Row → Nat → Option String → Except Err (List Row × Nat)
  | _, acc, g, none => .ok (acc, g)
  | 0, _, _, some _ => .error .fuelOut
  | fuel + 1, acc, g, some nxt =>
      match re nxt with
      | .error e => .error e
      | .ok out =>
          sub_pages_loop re fk pid fuel
            (acc ++ out.data.map (fun r => setEntry r fk pid)) (g + 1) out.next

/-- The `for item in collection` loop of `query_sub_collection`: for each
parent row, GET `{host}{endpoint}/{main}/{item['id']}/{sub}` with the query
string, stamp `row[foreign_key] = item['id']` on every returned row
(`for row in enumerate(out['data']): row[1][foreign_key] = item['id']`),
then walk the pagination links, stamping each page. -/
def w_sub_items (net : Net) (fuel : Nat)
    (host endpoint main sub qs fk : String) :
    List Row → Except Err (List Row × Nat)
  | [] => .ok ([], 0)
  | item :: rest =>
      match lookupEntry item "id" with
      | none => .error .keyError
      | some pid =>
          match (_retryable net "get"
              (host ++ endpoint ++ "/" ++ main ++ "/" ++ pid ++ "/" ++ sub ++
                "?" ++ qs ++ "=") []).1 with
          | .error e => .error e
          | .ok out =>
              match sub_pages_loop
                  (fun nxt => (_retryable net "get" (host ++ nxt) []).1)
                  fk pid fuel (out.data.map (fun r => setEntry r fk pid)) 1
                  out.next with
              | .error e => .error e
              | .ok (itemData, g1) =>
                  match w_sub_items net fuel host endpoint main sub qs fk rest with
                  | .error e => .error e
                  | .ok (restData, g2) => .ok (itemData ++ restData, g1 + g2)

/-- `query_sub_collection(host, endpoint, main_collection, sub_collection,
query_string, collection, foreign_key)`. -/
def query_sub_collection (net : Net) (fuel : Nat)
    (host endpoint main_collection sub_collection query_string : String)
    (collection : List Row) (foreign_key : String) :
    Except Err (List Row × Nat) :=
  w_sub_items net fuel host endpoint main_collection sub_collection
    query_string foreign_key collection

/-- One entry of `topology_info['queries']`: every field is read with
`.get(...)`, so each is optional. -/
structure WQuery where
  query_string : Option String
  main_collection : Option String
  sub_collection : Option String
  foreign_key : Option String
deriving DecidableEq

/-- `topology_info`: host, endpoint and the ordered entity-query mapping. -/
structure TopologyInfo where
  host : String
  endpoint : String
  queries : List (String × WQuery)
deriving DecidableEq

/-- Outcome of the `for entity in topology_info['queries']` loop of
`worker_topology`: all entities collected (`ok`), a caught
`requests.HTTPError` (`aborted`: `get_errors` incremented, early return), or
an uncaught exception (`crashed`). -/
inductive WRes where
  | ok (data : List (String × List Row))
  | aborted
  | crashed (e : Err)
deriving DecidableEq

/-- The entity loop of `worker_topology`.  Note: unlike
`topological_inventory_data`, there is no empty-row check — an entity whose
query resolves to zero rows is stored as an empty list and the loop
continues. -/
def wt_loop (net : Net) (fuel : Nat) (host endpoint : String) :
    List (String × WQuery) → List (String × List Row) → WRes
  | [], data => .ok data
  | (entity, q) :: rest, data =>
      if truthy q.sub_collection then
        match lookupEntry data (optStr q.main_collection) with
        | none => .crashed .keyError
        | some coll =>
            match query_sub_collection net fuel host endpoint
                (optStr q.main_collection) (optStr q.sub_collection)
                (optStr q.query_string) coll (optStr q.foreign_key) with
            | .error .requestFailed => .aborted
            | .error e => .crashed e
            | .ok (all_data, _) =>
                wt_loop net fuel host endpoint rest (setEntry data entity all_data)
      else
        match query_main_collection net fuel host endpoint
            (optStr q.main_collection) (optStr q.query_string) with
        | .error .requestFailed => .aborted
        | .error e => .crashed e
        | .ok (all_data, _) =>
            wt_loop net fuel host endpoint rest (setEntry data entity all_data)

/-- Observable outcome of one `worker_topology` run. -/
structure WTOutcome where
  posted : Option Payload
  post_successes : Nat
  post_errors : Nat
  get_errors : Nat
deriving DecidableEq

/-- `worker_topology(topology_info)`: run the entity loop; on a caught
`requests.HTTPError` increment `get_errors` and return without posting;
otherwise POST `{ 'id': source_id, 'data': ... }` to `http://{dest_url}`
with the `x-rh-identity` header, catching `requests.HTTPError`
(`post_errors`). -/
def worker_topology (net : Net) (fuel : Nat)
    (source_id dest_url b64_identity : String) (info : TopologyInfo) :
    Except Err WTOutcome :=
  match wt_loop net fuel info.host info.endpoint info.queries [] with
  | .crashed e => .error e
  | .aborted =>
      .ok { posted := none, post_successes := 0, post_errors := 0,
            get_errors := 1 }
  | .ok d =>
      match (_retryable net "post" ("http://" ++ dest_url)
          [("x-rh-identity", b64_identity)]).1 with
      | .ok _ =>
          .ok { posted := some { id := source_id, data := d },
                post_successes := 1, post_errors := 0, get_errors := 0 }
      | .error _ =>
          .ok { posted := some { id := source_id, data := d },
                post_successes := 0, post_errors := 1, get_errors := 0 }

/-! ## workers.py — download_job (the dispatcher) -/

/-- The two worker modes of `thread_mappings`. -/
inductive WorkerName where
  | worker_clustering
  | worker_topology
deriving DecidableEq

/-- `thread_mappings = {'worker_clustering': worker_clustering,
'worker_topology': worker_topology}`; `thread_mappings[name]` is a
`KeyError` for any other name. -/
def thread_mappings (name : String) : Option WorkerName :=
  if name = "worker_clustering" then some .worker_clustering
  else if name = "worker_topology" then some .worker_topology
  else none

/-- What one `download_job` call observably does, for a worker semantics
producing effects of type `α`: which effects happened inside the dispatch
call itself, which value was passed to `Thread(target=...)`, and which
effects the started thread performs.  (Both worker functions end without a
`return` value, i.e. they return `None`.) -/
structure DispatchTrace (α : Type) where
  dispatcherEffects : α
  threadTarget : Option Unit
  threadEffects : Option α
deriving DecidableEq

/-- `download_job`: `thread = Thread(target=thread_mappings[name](info));
thread.start()`.  Python evaluates the argument of `target=` eagerly:
`thread_mappings[name](info)` is a *call* — the selected worker function runs
to completion inside the dispatcher, and its return value `None` becomes the
`Thread` target, so the started thread runs nothing.  `run wn` is the
(effectful) execution of the selected worker body on the job's info. -/
def download_job {α : Type} (run : WorkerName → α) (name : String) :
    Except Err (DispatchTrace α) :=
  match thread_mappings name with
  | none => .error .keyError
  | some wn =>
      .ok { dispatcherEffects := run wn, threadTarget := none,
            threadEffects := none }

/-- Decidable equality for `Except`, so concrete runs can be settled by
`decide`. -/
instance {ε α : Type} [DecidableEq ε] [DecidableEq α] :
    DecidableEq (Except ε α)
  | .ok a, .ok b =>
      if h : a = b then .isTrue (by rw [h])
      else .isFalse (fun he => h (Except.ok.inj he))
  | .ok _, .error _ => .isFalse (fun he => Except.noConfusion he)
  | .error _, .ok _ => .isFalse (fun he => Except.noConfusion he)
  | .error e, .error f =>
      if h : e = f then .isTrue (by rw [h])
      else .isFalse (fun he => h (Except.error.inj he))

/-! ## Concrete scenarios used to instantiate the theorems below -/

/-- Server for the C1 counterexample: every GET answers an empty single
page, every POST succeeds. -/
def c1_net : Net := fun method _ _ _ =>
  if method = "post" then some { data := [], next := none }
  else some { data := [], next := none }

/-- Topology info for the C1 counterexample: one plain main-collection
entity. -/
def c1_info : TopologyInfo :=
  { host := "h", endpoint := "/api",
    queries := [("e",
      { query_string := some "q", main_collection := some "c",
        sub_collection := none, foreign_key := none })] }

/-- Environment for the C1 witness scenario. -/
def c1w_env : Env :=
  { ALL_TENANTS := false, SOURCES_HOST := "", SOURCES_PATH := "",
    TOPOLOGICAL_INVENTORY_HOST := "H", TOPOLOGICAL_INVENTORY_PATH := "v1",
    TOPOLOGICAL_INTERNAL_PATH := "intern" }

/-- Queries for the C1 witness scenario: three plain main-collection
entities. -/
def c1w_queries (e : String) : Option QuerySpec :=
  if e = "a" then
    some { service := none, main_collection := "ca", sub_collection := none,
           foreign_key := none }
  else if e = "b" then
    some { service := none, main_collection := "cb", sub_collection := none,
           foreign_key := none }
  else if e = "c" then
    some { service := none, main_collection := "cc", sub_collection := none,
           foreign_key := none }
  else none

/-- Server for the C1 witness scenario: entity `a` has one row, entity `b`
resolves to zero rows. -/
def c1w_net : Net := fun _ u _ _ =>
  if u = "H/v1/ca" then some { data := [[("id", "1")]], next := none }
  else if u = "H/v1/cb" then some { data := [], next := none }
  else some { data := [[("id", "1")]], next := none }

/-- Worker semantics for the C2 witness: an abstract effect per mode. -/
def c2_run : WorkerName → Nat
  | .worker_clustering => 0
  | .worker_topology => 1

/-- Server for the C3 witness: the first two attempts of any call fail, the
third succeeds. -/
def c3_net : Net := fun _ _ _ i =>
  if i = 2 then some { data := [], next := none } else none

/-- Server for the C4 witness: a two-page chain for collection `c`. -/
def c4_net : Net := fun _ u _ _ =>
  if u = "H/api/c" then some { data := [[("id", "1")]], next := some "/p2" }
  else if u = "H/p2" then some { data := [[("id", "2")]], next := none }
  else none

/-- Service used by the C4 witness. -/
def c4_svc : Service := { host := "H", path := "api" }

/-- Environment for the C5 witness. -/
def c5_env : Env :=
  { ALL_TENANTS := false, SOURCES_HOST := "", SOURCES_PATH := "",
    TOPOLOGICAL_INVENTORY_HOST := "H", TOPOLOGICAL_INVENTORY_PATH := "v1",
    TOPOLOGICAL_INTERNAL_PATH := "intern" }

/-- Query spec for the C5 witness: sub-collection `tags` of `c` with foreign
key `c_id`. -/
def c5_entity : QuerySpec :=
  { service := none, main_collection := "c", sub_collection := some "tags",
    foreign_key := some "c_id" }

/-- Server for the C5 witness: the single parent's `tags` sub-collection has
one row. -/
def c5_net : Net := fun _ u _ _ =>
  if u = "H/v1/c/3/tags" then some { data := [[("x", "y")]], next := none }
  else none

/-- Environment for the C6 witness. -/
def c6_env : Env :=
  { ALL_TENANTS := false, SOURCES_HOST := "", SOURCES_PATH := "",
    TOPOLOGICAL_INVENTORY_HOST := "H", TOPOLOGICAL_INVENTORY_PATH := "v1",
    TOPOLOGICAL_INTERNAL_PATH := "intern" }

/-- Queries for the C6 witness: one plain main-collection entity. -/
def c6_queries (e : String) : Option QuerySpec :=
  if e = "vms" then
    some { service := none, main_collection := "vms", sub_collection := none,
           foreign_key := none }
  else none

/-- Server for the C6 witness: tenant `2`'s queries resolve to zero rows
(raising `DataMissingError`), every other tenant gets one row, and POSTs
succeed. -/
def c6_net : Net := fun method _ hd _ =>
  if method = "post" then some { data := [], next := none }
  else if hd = (create_tenant "2").headers then some { data := [], next := none }
  else some { data := [[("id", "7")]], next := none }

/-- Expected outcome for tenant `1` in the C6 witness: payload forwarded. -/
def c6_o1 : TIOutcome :=
  { posted := some { id := "sid", data := [("vms", [[("id", "7")]])] },
    post_successes := 1, post_errors := 0, get_errors := 0,
    queried := ["vms"] }

/-- Expected outcome for tenant `2` in the C6 witness: aborted, nothing
forwarded. -/
def c6_o2 : TIOutcome :=
  { posted := none, post_successes := 0, post_errors := 0, get_errors := 1,
    queried := ["vms"] }

/-- Tenant-outcome assignment for the C6 witness. -/
def c6_O (t : Tenant) : TIOutcome :=
  if t.account_number = "2" then c6_o2 else c6_o1

/-- Environment for the C7 witness. -/
def c7_env : Env :=
  { ALL_TENANTS := false, SOURCES_HOST := "", SOURCES_PATH := "",
    TOPOLOGICAL_INVENTORY_HOST := "H", TOPOLOGICAL_INVENTORY_PATH := "v1",
    TOPOLOGICAL_INTERNAL_PATH := "intern" }

/-- Queries for the C7 witness. -/
def c7_queries (e : String) : Option QuerySpec :=
  if e = "vms" then
    some { service := none, main_collection := "vms", sub_collection := none,
           foreign_key := none }
  else none

/-- Server for the C7 witness: GETs succeed with one row, POSTs always fail
(all three attempts). -/
def c7_net : Net := fun method _ _ _ =>
  if method = "post" then none
  else some { data := [[("id", "1")]], next := none }

/-- Topology info for the C7 witness (workers.py conjunct). -/
def c7_info : TopologyInfo :=
  { host := "h", endpoint := "/api",
    queries := [("e",
      { query_string := some "q", main_collection := some "c",
        sub_collection := none, foreign_key := none })] }

/-- Environment for the C8 witness: broadcast mode. -/
def c8_env : Env :=
  { ALL_TENANTS := true, SOURCES_HOST := "", SOURCES_PATH := "",
    TOPOLOGICAL_INVENTORY_HOST := "H", TOPOLOGICAL_INVENTORY_PATH := "v1",
    TOPOLOGICAL_INTERNAL_PATH := "intern" }

/-- Queries for the C8 witness. -/
def c8_queries (e : String) : Option QuerySpec :=
  if e = "vms" then
    some { service := none, main_collection := "vms", sub_collection := none,
           foreign_key := none }
  else none

/-- Server for the C8 witness: the tenant-discovery endpoint reports one
tenant (`42`); entity GETs return one row; POSTs succeed. -/
def c8_net : Net := fun method u _ _ =>
  if method = "post" then some { data := [], next := none }
  else if u = "H/intern/tenants" then
    some { data := [[("external_tenant", "42")]], next := none }
  else some { data := [[("id", "9")]], next := none }

/-- Expected per-tenant outcome in the C8 witness. -/
def c8_o : TIOutcome :=
  { posted := some { id := "sid", data := [("vms", [[("id", "9")]])] },
    post_successes := 1, post_errors := 0, get_errors := 0,
    queried := ["vms"] }

/-- Server for the C9 witness (terminating part): a two-page chain. -/
def c9_net : Net := fun _ u _ _ =>
  if u = "H/api/c" then some { data := [[("id", "1")]], next := some "/p2" }
  else if u = "H/p2" then some { data := [[("id", "2")]], next := none }
  else none

/-- Service used by the C9 witness. -/
def c9_svc : Service := { host := "H", path := "api" }

/-- Server for the C9 witness (non-terminating part): every page carries a
`next` pointer. -/
def c9_inf_net : Net := fun _ _ _ _ =>
  some { data := [], next := some "/n" }

/-- Server for the C10 witness: the single parent's `tags` sub-collection
has one row. -/
def c10_net : Net := fun _ u _ _ =>
  if u = "H/v1/c/3/tags" then some { data := [[("x", "y")]], next := none }
  else none

/-- Environment for the C10 witness. -/
def c10_env : Env :=
  { ALL_TENANTS := false, SOURCES_HOST := "", SOURCES_PATH := "",
    TOPOLOGICAL_INVENTORY_HOST := "H", TOPOLOGICAL_INVENTORY_PATH := "v1",
    TOPOLOGICAL_INTERNAL_PATH := "intern" }

/-- Query spec for the C10 witness: sub-collection `tags` of `c` with a
`null` foreign key. -/
def c10_entity : QuerySpec :=
  { service := none, main_collection := "c", sub_collection := some "tags",
    foreign_key := none }

/-! ## Helper lemmas -/

/-- Closed form of the three-attempt loop `retry_loop f 3 i`. -/
theorem retry_loop_three (f : Nat → Option Page) (i : Nat) :
    retry_loop f 3 i =
      match f i with
      | some r => (.ok r, i + 1)
      | none =>
        match f (i + 1) with
        | some r => (.ok r, i + 2)
        | none =>
          match f (i + 2) with
          | some r => (.ok r, i + 3)
          | none => (.error .requestFailed, i + 3) := by
  cases h0 : f i <;> cases h1 : f (i + 1) <;> cases h2 : f (i + 2) <;>
    simp [retry_loop, show (3 : Nat) = 2 + 1 from rfl,
      show (2 : Nat) = 1 + 1 from rfl, h0, h1, h2]

/-- Looking up the key just set by `setEntry` returns the new value. -/
theorem lookupEntry_setEntry {α : Type} (d : List (String × α)) (k : String)
    (v : α) : lookupEntry (setEntry d k v) k = some v := by
  induction d with
  | nil => simp [setEntry, lookupEntry]
  | cons p rest ih =>
      obtain ⟨k', w⟩ := p
      by_cases h : k' = k <;> simp [setEntry, lookupEntry, h, ih]

/-- When the foreign-key name or value is falsy, `_update_fk` is the
identity. -/
theorem _update_fk_falsy (page : List Row) (fkn fki : Option String)
    (h : truthy fkn = false ∨ truthy fki = false) :
    _update_fk page fkn fki = page := by
  cases fkn with
  | none => rfl
  | some n =>
      cases fki with
      | none => rfl
      | some i =>
          have h' : n = "" ∨ i = "" := by simpa [truthy] using h
          simp [_update_fk, h']

/-- When both the foreign-key name and value are truthy, `_update_fk`
stamps every row. -/
theorem _update_fk_truthy (page : List Row) (n i : String)
    (hn : n ≠ "") (hi : i ≠ "") :
    _update_fk page (some n) (some i) = page.map (fun r => setEntry r n i) := by
  simp [_update_fk, hn, hi]

/-- A complete chain of `ps` pages starting at pointer `start` makes
`pages_loop` return the concatenation of the pages' rows, counting one
successful GET per page, for any sufficient fuel. -/
theorem pages_loop_complete (re : String → Except Err Page) :
    ∀ (ps : List Page) (start : Option String) (fuel : Nat)
      (acc : List Row) (g : Nat),
      chainPages re start ps none = true → ps.length ≤ fuel →
      pages_loop re fuel acc g start =
        .ok (acc ++ (ps.map Page.data).flatten, g + ps.length) := by
  intro ps
  induction ps with
  | nil =>
      intro start fuel acc g hchain _
      have hs : start = none := by
        simpa [chainPages] using hchain
      subst hs
      simp [pages_loop]
  | cons p rest ih =>
      intro start fuel acc g hchain hfuel
      cases start with
      | none => simp [chainPages] at hchain
      | some nxt =>
          rw [chainPages, Bool.and_eq_true] at hchain
          obtain ⟨hfirst, hrest⟩ := hchain
          cases hre : re nxt with
          | error e => rw [hre] at hfirst; simp at hfirst
          | ok q =>
              rw [hre] at hfirst
              have hq : q = p := by simpa using hfirst
              subst hq
              cases fuel with
              | zero => simp at hfuel
              | succ fuel' =>
                  rw [pages_loop]
                  simp only [hre]
                  rw [ih q.next fuel' (acc ++ q.data) (g + 1) hrest
                    (by simpa using hfuel)]
                  have harith : g + 1 + rest.length = g + (rest.length + 1) := by
                    omega
                  simp [List.append_assoc, harith]

/-- A chain of `ps` pages leading to a pointer `u` whose fetch exhausts its
retries makes `pages_loop` fail with `requestFailed` — the partial rows are
discarded. -/
theorem pages_loop_fails (re : String → Except Err Page) :
    ∀ (ps : List Page) (start : Option String) (u : String) (fuel : Nat)
      (acc : List Row) (g : Nat),
      chainPages re start ps (some u) = true →
      re u = .error .requestFailed → ps.length < fuel →
      pages_loop re fuel acc g start = .error .requestFailed := by
  intro ps
  induction ps with
  | nil =>
      intro start u fuel acc g hchain hu hfuel
      have hs : start = some u := by simpa [chainPages] using hchain
      subst hs
      cases fuel with
      | zero => simp at hfuel
      | succ fuel' => simp [pages_loop, hu]
  | cons p rest ih =>
      intro start u fuel acc g hchain hu hfuel
      cases start with
      | none => simp [chainPages] at hchain
      | some nxt =>
          rw [chainPages, Bool.and_eq_true] at hchain
          obtain ⟨hfirst, hrest⟩ := hchain
          cases hre : re nxt with
          | error e => rw [hre] at hfirst; simp at hfirst
          | ok q =>
              rw [hre] at hfirst
              have hq : q = p := by simpa using hfirst
              subst hq
              cases fuel with
              | zero => simp at hfuel
              | succ fuel' =>
                  rw [pages_loop]
                  simp only [hre]
                  exact ih q.next u fuel' (acc ++ q.data) (g + 1) hrest hu
                    (by simpa using hfuel)

/-- When every page the server returns carries a `next` pointer, the
pagination loop never produces a result: nothing but the absence of a `next`
pointer ends the traversal. -/
theorem pages_loop_unbounded (re : String → Except Err Page)
    (H : ∀ u, ∃ p, re u = .ok p ∧ p.next.isSome) :
    ∀ (fuel : Nat) (nxt : String) (acc : List Row) (g : Nat),
      pages_loop re fuel acc g (some nxt) = .error .fuelOut := by
  intro fuel
  induction fuel with
  | zero => intro nxt acc g; rfl
  | succ fuel' ih =>
      intro nxt acc g
      obtain ⟨p, hp, hn⟩ := H nxt
      obtain ⟨n', hn'⟩ := Option.isSome_iff_exists.mp hn
      rw [pages_loop]
      simp only [hp, hn']
      exact ih n' (acc ++ p.data) (g + 1)

/-- A successfully completed query loop has executed exactly the queries of
its entity list, in order. -/
theorem run_queries_queried (net : Net) (fuel : Nat) (env : Env)
    (queries : String → Option QuerySpec) (hd : Headers) :
    ∀ (cfg : List String) (data : List (String × List Row))
      (queried : List String) (d : List (String × List Row))
      (q : List String),
      run_queries net fuel env queries hd cfg data queried = .ok d q →
      q = queried ++ cfg := by
  intro cfg
  induction cfg with
  | nil =>
      intro data queried d q h
      rw [run_queries] at h
      cases h
      simp
  | cons entity rest ih =>
      intro data queried d q h
      rw [run_queries] at h
      cases hq : queries entity with
      | none => simp [hq] at h
      | some query_spec =>
          simp only [hq] at h
          cases hqe : query_entity_data net fuel env query_spec data hd with
          | error e => cases e <;> simp [hqe] at h
          | ok p =>
              obtain ⟨all_data, g⟩ := p
              simp only [hqe] at h
              by_cases hemp : all_data.isEmpty
              · simp [hemp] at h
              · rw [if_neg hemp] at h
                simpa using ih (setEntry data entity all_data)
                  (queried ++ [entity]) d q h

/-- Splitting the query loop at a list append: the second half runs from the
state the first half ended in, and an abort or crash in the first half is
final. -/
theorem run_queries_append (net : Net) (fuel : Nat) (env : Env)
    (queries : String → Option QuerySpec) (hd : Headers) :
    ∀ (cfg1 cfg2 : List String) (data : List (String × List Row))
      (queried : List String),
      run_queries net fuel env queries hd (cfg1 ++ cfg2) data queried =
        match run_queries net fuel env queries hd cfg1 data queried with
        | .ok d q => run_queries net fuel env queries hd cfg2 d q
        | .aborted q => .aborted q
        | .crashed e => .crashed e := by
  intro cfg1
  induction cfg1 with
  | nil => intro cfg2 data queried; simp [run_queries]
  | cons entity rest ih =>
      intro cfg2 data queried
      rw [List.cons_append, run_queries]
      conv_rhs => rw [run_queries]
      cases hq : queries entity with
      | none => simp [hq]
      | some query_spec =>
          simp only [hq]
          cases hqe : query_entity_data net fuel env query_spec data hd with
          | error e => cases e <;> simp [hqe]
          | ok p =>
              obtain ⟨all_data, g⟩ := p
              simp only [hqe]
              by_cases hemp : all_data.isEmpty
              · simp [hemp]
              · simp only [if_neg hemp]
                exact ih cfg2 (setEntry data entity all_data)
                  (queried ++ [entity])

/-- Specification of the per-parent loop of `_query_sub_collection`: when
every parent has an `id` and every per-parent fetch succeeds, the result is
the in-order concatenation of the per-parent stamped rows, and the GET count
is the sum of the per-parent counts. -/
theorem sub_items_loop_spec (net : Net) (fuel : Nat) (svc : Service)
    (main sub : String) (fk : Option String) (hd : Headers)
    (pid : Row → String) (R : Row → List Row) (G : Row → Nat) :
    ∀ (items : List Row),
      (∀ it ∈ items, lookupEntry it "id" = some (pid it)) →
      (∀ it ∈ items,
        _collect_data net fuel svc (main ++ "/" ++ pid it ++ "/" ++ sub) hd =
          .ok (R it, G it)) →
      sub_items_loop net fuel svc main sub fk hd items =
        .ok ((items.map (fun it => _update_fk (R it) fk (some (pid it)))).flatten,
             (items.map G).sum) := by
  intro items
  induction items with
  | nil => intro _ _; simp [sub_items_loop]
  | cons item rest ih =>
      intro hid hfetch
      rw [sub_items_loop]
      simp only [hid item (by simp), hfetch item (by simp)]
      rw [ih (fun it hit => hid it (by simp [hit]))
        (fun it hit => hfetch it (by simp [hit]))]
      simp

/-- When every discovered tenant row carries an `external_tenant` id, the
tenant list comprehension builds exactly one `Tenant` per row, in order. -/
theorem tenant_rows_spec (tid : Row → String) :
    ∀ (rows : List Row),
      (∀ r ∈ rows, lookupEntry r "external_tenant" = some (tid r)) →
      tenant_rows_to_tenants rows =
        .ok (rows.map (fun r => create_tenant (tid r))) := by
  intro rows
  induction rows with
  | nil => intro _; simp [tenant_rows_to_tenants]
  | cons r rest ih =>
      intro hids
      rw [tenant_rows_to_tenants]
      simp only [hids r (by simp)]
      rw [ih (fun r' hr' => hids r' (by simp [hr']))]
      rfl

/-- When the per-tenant pipeline returns normally for every tenant (which it
does even when a tenant's queries abort, since `RetryFailedError` and
`DataMissingError` are caught inside it), the fan-out loop processes every
tenant in order and marks each one processed. -/
theorem worker_loop_spec (net : Net) (fuel : Nat) (env : Env)
    (queries : String → Option QuerySpec) (app_config : List String)
    (source_id dest : String) (O : Tenant → TIOutcome) :
    ∀ (ts : List Tenant),
      (∀ t ∈ ts,
        topological_inventory_data net fuel env queries app_config source_id
          dest t.headers = .ok (O t)) →
      worker_loop net fuel env queries app_config source_id dest ts =
        .ok (ts.map O, ts.map Tenant.account_number) := by
  intro ts
  induction ts with
  | nil => intro _; simp [worker_loop]
  | cons t rest ih =>
      intro hrun
      rw [worker_loop]
      simp only [hrun t (by simp)]
      rw [ih (fun t' ht' => hrun t' (by simp [ht']))]
      rfl

/-- A query loop that aborts (a caught `RetryFailedError` or
`DataMissingError`) makes `topological_inventory_data` return normally with
`get_errors` incremented and no POST attempted. -/
theorem tid_of_aborted (net : Net) (fuel : Nat) (env : Env)
    (queries : String → Option QuerySpec) (app_config : List String)
    (source_id dest : String) (hd : Headers) (q : List String)
    (hne : app_config.isEmpty = false)
    (h : run_queries net fuel env queries hd app_config [] [] = .aborted q) :
    topological_inventory_data net fuel env queries app_config source_id dest
      hd =
      .ok { posted := none, post_successes := 0, post_errors := 0,
            get_errors := 1, queried := q } := by
  rw [topological_inventory_data, hne]
  simp only [h]
  rfl

/-! ## Claim theorems -/

/-- C3: for every call to `_retryable`, if any of the first 3 attempts
succeeds (its earlier attempts having failed), that attempt's response is
returned after exactly that many attempts — no further attempt is made; and
the call fails with the retry-exhaustion error if and only if all 3 attempts
failed (in which case exactly 3 attempts were made).  There is no delay
construct anywhere in the loop: retries are immediate. -/
theorem c3_retryable_three_attempts (net : Net) (m u : String) (hd : Headers) :
    (∀ (i : Nat) (r : Page), i < 3 → (∀ j, j < i → net m u hd j = none) →
      net m u hd i = some r → _retryable net m u hd = (.ok r, i + 1)) ∧
    ((_retryable net m u hd).1 = .error .requestFailed ↔
      ∀ i, i < 3 → net m u hd i = none) := by
  have hclosed : _retryable net m u hd = retry_loop (net m u hd) 3 0 := rfl
  constructor
  · intro i r hi hprev hsome
    interval_cases i
    · rw [hclosed, retry_loop_three]
      simp only [Nat.zero_add, hsome]
    · rw [hclosed, retry_loop_three]
      simp only [hprev 0 (by omega), Nat.zero_add, hsome]
    · rw [hclosed, retry_loop_three]
      simp only [hprev 0 (by omega), hprev 1 (by omega), Nat.zero_add, hsome]
  · constructor
    · intro h
      cases h0 : net m u hd 0 with
      | some r => rw [hclosed, retry_loop_three] at h; simp [h0] at h
      | none =>
          cases h1 : net m u hd 1 with
          | some r =>
              rw [hclosed, retry_loop_three] at h; simp [h0, h1] at h
          | none =>
              cases h2 : net m u hd 2 with
              | some r =>
                  rw [hclosed, retry_loop_three] at h; simp [h0, h1, h2] at h
              | none =>
                  intro i hi
                  interval_cases i
                  · exact h0
                  · exact h1
                  · exact h2
    · intro h
      rw [hclosed, retry_loop_three]
      simp only [h 0 (by omega), h 1 (by omega), h 2 (by omega), Nat.zero_add]

/-- C3 witness: a call failing on attempts 1 and 2 and succeeding on
attempt 3 returns that response after exactly 3 attempts; a call failing on
every attempt exhausts its retries. -/
theorem c3_witness :
    _retryable c3_net "get" "u" [] = (.ok { data := [], next := none }, 3) ∧
    (_retryable (fun _ _ _ _ => none) "get" "u" []).1 =
      .error .requestFailed := by
  constructor
  · exact (c3_retryable_three_attempts c3_net "get" "u" []).1 2
      { data := [], next := none } (by omega) (by decide) (by decide)
  · exact ((c3_retryable_three_attempts (fun _ _ _ _ => none) "get" "u" []).2).mpr
      (fun i _ => rfl)

/-- C10: when the foreign-key field name or the parent-id value is absent
(`None`) or falsy (empty), `_update_fk` returns the row list completely
unchanged; consequently a sub-collection query under a spec whose
`foreign_key` is not truthy emits exactly the fetched rows, without any
foreign-key field added. -/
theorem c10_update_fk_noop (page : List Row) (fkn fki : Option String)
    (net : Net) (fuel : Nat) (env : Env) (entity : QuerySpec)
    (data : List (String × List Row)) (hd : Headers) (sub : String)
    (items : List Row) (pid : Row → String) (R : Row → List Row)
    (G : Row → Nat) :
    (truthy fkn = false ∨ truthy fki = false →
      _update_fk page fkn fki = page) ∧
    (entity.sub_collection = some sub →
      truthy entity.foreign_key = false →
      lookupEntry data entity.main_collection = some items →
      (∀ it ∈ items, lookupEntry it "id" = some (pid it)) →
      (∀ it ∈ items,
        _collect_data net fuel (SERVICES_URL env entity.service)
          (entity.main_collection ++ "/" ++ pid it ++ "/" ++ sub) hd =
          .ok (R it, G it)) →
      _query_sub_collection net fuel env entity data hd =
        .ok ((items.map R).flatten, (items.map G).sum)) := by
  constructor
  · exact _update_fk_falsy page fkn fki
  · intro hsub hfk hitems hid hfetch
    rw [_query_sub_collection]
    simp only [hsub, hitems]
    rw [sub_items_loop_spec net fuel (SERVICES_URL env entity.service)
      entity.main_collection sub entity.foreign_key hd pid R G items hid hfetch]
    have hmap : items.map (fun it => _update_fk (R it) entity.foreign_key
        (some (pid it))) = items.map R := by
      apply List.map_congr_left
      intro it _
      exact _update_fk_falsy (R it) entity.foreign_key (some (pid it))
        (Or.inl hfk)
    rw [hmap]

/-- C10 witness: with a `null` foreign key, the stamping helper leaves a
page unchanged and the sub-collection query of one parent returns its single
fetched row without any foreign key. -/
theorem c10_witness :
    _update_fk [[("a", "1")]] none (some "5") = [[("a", "1")]] ∧
    _query_sub_collection c10_net 1 c10_env c10_entity
      [("c", [[("id", "3")]])] [] = .ok ([[("x", "y")]], 1) := by
  constructor
  · exact (c10_update_fk_noop [[("a", "1")]] none (some "5") c10_net 1 c10_env
      c10_entity [("c", [[("id", "3")]])] [] "tags" [[("id", "3")]]
      (fun _ => "3") (fun _ => [[("x", "y")]]) (fun _ => 1)).1 (Or.inl rfl)
  · have h := (c10_update_fk_noop [[("a", "1")]] none (some "5") c10_net 1
      c10_env c10_entity [("c", [[("id", "3")]])] [] "tags" [[("id", "3")]]
      (fun _ => "3") (fun _ => [[("x", "y")]]) (fun _ => 1)).2 rfl rfl rfl
      (by intro it hit; simp at hit; subst hit; rfl)
      (by intro it hit; simp at hit; subst hit; rfl)
    simpa using h

/-- C4: for every paginated response sequence of `1 + ps.length` pages (the
last carrying no next-page pointer, each earlier page pointing to its
successor), `_collect_data` returns exactly the concatenation of the pages'
row lists in page-then-row order, counting exactly one successful GET per
page; and as soon as any page's retries are exhausted it fails with the
retry error, returning no rows at all (the partial rows are discarded with
the raised exception). -/
theorem c4_collect_data_pages (net : Net) (fuel : Nat) (svc : Service)
    (url : String) (hd : Headers) (p0 : Page) (ps : List Page) (u : String)
    (e : Err) :
    ((utils_retryable net "get"
        (svc.host ++ "/" ++ svc.path ++ "/" ++ url) hd).1 = .ok p0 →
      chainPages (fun nxt => (utils_retryable net "get" (svc.host ++ nxt) hd).1)
        p0.next ps none = true →
      ps.length ≤ fuel →
      _collect_data net fuel svc url hd =
        .ok (p0.data ++ (ps.map Page.data).flatten, 1 + ps.length)) ∧
    ((utils_retryable net "get"
        (svc.host ++ "/" ++ svc.path ++ "/" ++ url) hd).1 = .error e →
      _collect_data net fuel svc url hd = .error e) ∧
    ((utils_retryable net "get"
        (svc.host ++ "/" ++ svc.path ++ "/" ++ url) hd).1 = .ok p0 →
      chainPages (fun nxt => (utils_retryable net "get" (svc.host ++ nxt) hd).1)
        p0.next ps (some u) = true →
      (utils_retryable net "get" (svc.host ++ u) hd).1 =
        .error .requestFailed →
      ps.length < fuel →
      _collect_data net fuel svc url hd = .error .requestFailed) := by
  refine ⟨?_, ?_, ?_⟩
  · intro h0 hchain hfuel
    rw [_collect_data]
    simp only [h0]
    rw [pages_loop_complete _ ps p0.next fuel p0.data 1 hchain hfuel]
  · intro h0
    rw [_collect_data]
    simp only [h0]
  · intro h0 hchain hu hfuel
    rw [_collect_data]
    simp only [h0]
    exact pages_loop_fails _ ps p0.next u fuel p0.data 1 hchain hu hfuel

/-- C4 witness: a two-page chain (one row each) yields the two rows in order
with exactly 2 successful GETs. -/
theorem c4_witness :
    _collect_data c4_net 1 c4_svc "c" [] =
      .ok ([[("id", "1")], [("id", "2")]], 2) := by
  have h := (c4_collect_data_pages c4_net 1 c4_svc "c" []
    { data := [[("id", "1")]], next := some "/p2" }
    [{ data := [[("id", "2")]], next := none }] "" Err.requestFailed).1
    rfl (by decide) (by simp)
  simpa using h

/-- C9: for every response chain in which a page with no next-page pointer
is eventually reached, the pagination traversal of `_collect_data`
terminates with a definite result (it never runs out of fuel under that
precondition); and nothing except the absence of a next pointer ends the
loop — against a server whose every page carries a next pointer, the loop
consumes any amount of fuel without ever producing a result. -/
theorem c9_pagination_terminates (net : Net) (fuel : Nat) (svc : Service)
    (url : String) (hd : Headers) (p0 : Page) (ps : List Page)
    (re : String → Except Err Page) :
    ((utils_retryable net "get"
        (svc.host ++ "/" ++ svc.path ++ "/" ++ url) hd).1 = .ok p0 →
      chainPages (fun nxt => (utils_retryable net "get" (svc.host ++ nxt) hd).1)
        p0.next ps none = true →
      ps.length ≤ fuel →
      ∃ rows g, _collect_data net fuel svc url hd = .ok (rows, g)) ∧
    ((∀ u', ∃ p, re u' = .ok p ∧ p.next.isSome) →
      ∀ (f : Nat) (nxt : String) (acc : List Row) (g : Nat),
        pages_loop re f acc g (some nxt) = .error .fuelOut) := by
  constructor
  · intro h0 hchain hfuel
    refine ⟨p0.data ++ (ps.map Page.data).flatten, 1 + ps.length, ?_⟩
    rw [_collect_data]
    simp only [h0]
    rw [pages_loop_complete _ ps p0.next fuel p0.data 1 hchain hfuel]
  · intro H f nxt acc g
    exact pages_loop_unbounded re H f nxt acc g

/-- C9 witness: a chain that reaches a page without a next pointer after two
pages terminates with a result; a server that always supplies a next pointer
makes the loop exhaust any fuel without a result. -/
theorem c9_witness :
    (∃ rows g, _collect_data c9_net 1 c9_svc "c" [] = .ok (rows, g)) ∧
    pages_loop (fun nxt => (utils_retryable c9_inf_net "get" ("H" ++ nxt) []).1)
      5 [] 0 (some "/n") = .error .fuelOut := by
  constructor
  · exact (c9_pagination_terminates c9_net 1 c9_svc "c" []
      { data := [[("id", "1")]], next := some "/p2" }
      [{ data := [[("id", "2")]], next := none }]
      (fun nxt => (utils_retryable c9_inf_net "get" ("H" ++ nxt) []).1)).1
      rfl (by decide) (by simp)
  · exact (c9_pagination_terminates c9_net 1 c9_svc "c" []
      { data := [[("id", "1")]], next := some "/p2" }
      [{ data := [[("id", "2")]], next := none }]
      (fun nxt => (utils_retryable c9_inf_net "get" ("H" ++ nxt) []).1)).2
      (fun u' => ⟨{ data := [], next := some "/n" }, rfl, rfl⟩) 5 "/n" [] 0

/-- C5: for every sub-collection query whose spec carries a truthy foreign
key, over parents that each carry a truthy id and whose fetches succeed,
the parents are processed strictly sequentially in the parent sequence's
order (the result is the in-order concatenation of the per-parent row
lists); every emitted row has the foreign-key field set to its parent's id;
and the total emitted row count is the sum over parents of that parent's
fetched row count. -/
theorem c5_sub_collection_fk_and_counts (net : Net) (fuel : Nat) (env : Env)
    (entity : QuerySpec) (data : List (String × List Row)) (hd : Headers)
    (sub f : String) (items : List Row) (pid : Row → String)
    (R : Row → List Row) (G : Row → Nat)
    (hsub : entity.sub_collection = some sub)
    (hfk : entity.foreign_key = some f) (hf : f ≠ "")
    (hitems : lookupEntry data entity.main_collection = some items)
    (hid : ∀ it ∈ items, lookupEntry it "id" = some (pid it))
    (hpid : ∀ it ∈ items, pid it ≠ "")
    (hfetch : ∀ it ∈ items,
      _collect_data net fuel (SERVICES_URL env entity.service)
        (entity.main_collection ++ "/" ++ pid it ++ "/" ++ sub) hd =
        .ok (R it, G it)) :
    _query_sub_collection net fuel env entity data hd =
      .ok ((items.map (fun it =>
              (R it).map (fun r => setEntry r f (pid it)))).flatten,
           (items.map G).sum) ∧
    ((items.map (fun it =>
        (R it).map (fun r => setEntry r f (pid it)))).flatten).length =
      (items.map (fun it => (R it).length)).sum ∧
    (∀ it ∈ items, ∀ r ∈ R it,
      lookupEntry (setEntry r f (pid it)) f = some (pid it)) := by
  refine ⟨?_, ?_, ?_⟩
  · rw [_query_sub_collection]
    simp only [hsub, hitems]
    rw [sub_items_loop_spec net fuel (SERVICES_URL env entity.service)
      entity.main_collection sub entity.foreign_key hd pid R G items hid hfetch]
    have hmap : items.map (fun it => _update_fk (R it) entity.foreign_key
        (some (pid it))) = items.map (fun it =>
          (R it).map (fun r => setEntry r f (pid it))) := by
      apply List.map_congr_left
      intro it hit
      rw [hfk]
      exact _update_fk_truthy (R it) f (pid it) hf (hpid it hit)
    rw [hmap]
  · simp [List.length_flatten, Function.comp_def]
  · intro it _ r _
    exact lookupEntry_setEntry r f (pid it)

/-- C5 witness: one parent with id `3`, one fetched sub-collection row:
the emitted row is stamped `c_id = 3` and the counts agree. -/
theorem c5_witness :
    _query_sub_collection c5_net 1 c5_env c5_entity [("c", [[("id", "3")]])]
      [] = .ok ([[("x", "y"), ("c_id", "3")]], 1) := by
  have h := (c5_sub_collection_fk_and_counts c5_net 1 c5_env c5_entity
    [("c", [[("id", "3")]])] [] "tags" "c_id" [[("id", "3")]]
    (fun _ => "3") (fun _ => [[("x", "y")]]) (fun _ => 1)
    rfl rfl (by decide) rfl
    (by intro it hit; simp at hit; subst hit; rfl)
    (by intro it hit; simp)
    (by intro it hit; simp at hit; subst hit; rfl)).1
  simpa using h

/-- C1 counterexample: the claim quantifies over every run of the query-plan
executor and cites `worker_topology` (workers.py) as one of its
implementations, but `worker_topology` performs no empty-row check: here its
single entity query resolves to zero rows, yet the run does not raise
`DataMissing` and the payload — containing the empty entity — is forwarded
(the POST is attempted and succeeds), contradicting "no payload (partial or
otherwise) is sent downstream". -/
theorem c1_counterexample :
    worker_topology c1_net 1 "sid" "dest" "b64" c1_info =
      .ok { posted := some { id := "sid", data := [("e", [])] },
            post_successes := 1, post_errors := 0, get_errors := 0 } := by
  decide

/-- C1 (amended): in the collector's query-plan executor
(`topological_inventory_data`), if the entity `e` — reached after the prefix
`cfg1` of the plan completed successfully — resolves to an empty row
sequence, the run raises `DataMissing` and aborts: no POST is attempted
(`posted = none`), and the entities after `e` are never queried
(`queried = cfg1 ++ [e]`).  The workers.py executor (`worker_topology`)
performs no such check (see the counterexample). -/
theorem c1_empty_query_aborts_before_forward (net : Net) (fuel : Nat)
    (env : Env) (queries : String → Option QuerySpec) (hd : Headers)
    (source_id dest : String) (cfg1 cfg2 : List String) (e : String)
    (d : List (String × List Row)) (q0 : List String) (spec : QuerySpec)
    (g : Nat)
    (h1 : run_queries net fuel env queries hd cfg1 [] [] = .ok d q0)
    (h2 : queries e = some spec)
    (h3 : query_entity_data net fuel env spec d hd = .ok ([], g)) :
    topological_inventory_data net fuel env queries (cfg1 ++ e :: cfg2)
      source_id dest hd =
      .ok { posted := none, post_successes := 0, post_errors := 0,
            get_errors := 1, queried := cfg1 ++ [e] } := by
  have hq0 : q0 = cfg1 := by
    simpa using run_queries_queried net fuel env queries hd cfg1 [] [] d q0 h1
  have hrun : run_queries net fuel env queries hd (cfg1 ++ e :: cfg2) [] [] =
      .aborted (cfg1 ++ [e]) := by
    rw [run_queries_append net fuel env queries hd cfg1 (e :: cfg2) [] [], h1]
    show run_queries net fuel env queries hd (e :: cfg2) d q0 =
      .aborted (cfg1 ++ [e])
    rw [run_queries]
    simp only [h2, h3]
    simp [hq0]
  exact tid_of_aborted net fuel env queries (cfg1 ++ e :: cfg2) source_id dest
    hd (cfg1 ++ [e]) (by simp) hrun

/-- C1 witness: plan `[a, b, c]` where `a` yields one row and `b` yields
zero rows — the run aborts with `get_errors` incremented, nothing is posted,
and `c` is never queried. -/
theorem c1_witness :
    topological_inventory_data c1w_net 1 c1w_env c1w_queries ["a", "b", "c"]
      "sid" "dest" [] =
      .ok { posted := none, post_successes := 0, post_errors := 0,
            get_errors := 1, queried := ["a", "b"] } := by
  have h := c1_empty_query_aborts_before_forward c1w_net 1 c1w_env c1w_queries
    [] "sid" "dest" ["a"] ["c"] "b" [("a", [[("id", "1")]])] ["a"]
    { service := none, main_collection := "cb", sub_collection := none,
      foreign_key := none } 1 (by decide) (by decide) (by decide)
  simpa using h

/-- C6: a `RetryFailedError` or `DataMissingError` arising while processing
one tenant is caught inside that tenant's `topological_inventory_data` call
(which returns normally with `get_errors` incremented and nothing posted),
and the fan-out loop therefore processes every remaining tenant: when each
per-tenant call returns normally, the loop returns the per-tenant outcomes
in order and marks every tenant processed, without raising. -/
theorem c6_tenant_isolation (net : Net) (fuel : Nat) (env : Env)
    (queries : String → Option QuerySpec) (app_config : List String)
    (source_id dest : String) :
    (∀ (hd : Headers) (q : List String), app_config.isEmpty = false →
      run_queries net fuel env queries hd app_config [] [] = .aborted q →
      topological_inventory_data net fuel env queries app_config source_id
        dest hd =
        .ok { posted := none, post_successes := 0, post_errors := 0,
              get_errors := 1, queried := q }) ∧
    (∀ (ts : List Tenant) (O : Tenant → TIOutcome),
      (∀ t ∈ ts,
        topological_inventory_data net fuel env queries app_config source_id
          dest t.headers = .ok (O t)) →
      worker_loop net fuel env queries app_config source_id dest ts =
        .ok (ts.map O, ts.map Tenant.account_number)) := by
  constructor
  · intro hd q hne h
    exact tid_of_aborted net fuel env queries app_config source_id dest hd q
      hne h
  · intro ts O h
    exact worker_loop_spec net fuel env queries app_config source_id dest O
      ts h

/-- C6 witness: fan-out over tenants `1` and `2` where tenant `2`'s query
resolves to zero rows (`DataMissingError`): tenant `1`'s payload is
forwarded, nothing is forwarded for tenant `2`, and the loop returns
normally having processed both tenants. -/
theorem c6_witness :
    worker_loop c6_net 1 c6_env c6_queries ["vms"] "sid" "dest"
      [create_tenant "1", create_tenant "2"] =
      .ok ([c6_o1, c6_o2], ["1", "2"]) ∧
    c6_o1.posted =
      some { id := "sid", data := [("vms", [[("id", "7")]])] } ∧
    c6_o2.posted = none := by
  refine ⟨?_, rfl, rfl⟩
  have h := (c6_tenant_isolation c6_net 1 c6_env c6_queries ["vms"] "sid"
    "dest").2 [create_tenant "1", create_tenant "2"] c6_O ?_
  · exact h
  · intro t ht
    rcases List.mem_cons.mp ht with rfl | ht
    · decide
    · rcases List.mem_cons.mp ht with rfl | ht
      · decide
      · cases ht

/-- C7: the forwarding step never raises to its caller.  In the collector,
once the query loop has succeeded, `topological_inventory_data` returns
normally whatever the POST does: a POST whose retries are exhausted is
caught, logged, and counted in `post_errors` (with `post_successes = 0`),
while a successful POST counts in `post_successes`; in both cases the
payload and the rest of the outcome are identical.  The same holds for the
POST step of workers.py's `worker_topology`. -/
theorem c7_forward_never_raises (net : Net) (fuel : Nat) (env : Env)
    (queries : String → Option QuerySpec) (app_config : List String)
    (source_id dest : String) (hd : Headers) (d : List (String × List Row))
    (q : List String) (e : Err) (wnet : Net) (wfuel : Nat)
    (wsid wdest wb64 : String) (winfo : TopologyInfo)
    (wd : List (String × List Row)) :
    (app_config.isEmpty = false →
      run_queries net fuel env queries hd app_config [] [] = .ok d q →
      ((utils_retryable net "post" dest hd).1 = .error e →
        topological_inventory_data net fuel env queries app_config source_id
          dest hd =
          .ok { posted := some { id := source_id, data := d },
                post_successes := 0, post_errors := 1, get_errors := 0,
                queried := q }) ∧
      (∀ r, (utils_retryable net "post" dest hd).1 = .ok r →
        topological_inventory_data net fuel env queries app_config source_id
          dest hd =
          .ok { posted := some { id := source_id, data := d },
                post_successes := 1, post_errors := 0, get_errors := 0,
                queried := q })) ∧
    (wt_loop wnet wfuel winfo.host winfo.endpoint winfo.queries [] = .ok wd →
      (_retryable wnet "post" ("http://" ++ wdest)
          [("x-rh-identity", wb64)]).1 = .error e →
      worker_topology wnet wfuel wsid wdest wb64 winfo =
        .ok { posted := some { id := wsid, data := wd },
              post_successes := 0, post_errors := 1, get_errors := 0 }) := by
  constructor
  · intro hne hrun
    constructor
    · intro hpost
      rw [topological_inventory_data, hne]
      simp only [hrun, hpost]
      rfl
    · intro r hpost
      rw [topological_inventory_data, hne]
      simp only [hrun, hpost]
      rfl
  · intro hloop hpost
    rw [worker_topology]
    simp only [hloop, hpost]

/-- C7 witness: queries succeed but every POST attempt fails — both the
collector pipeline and `worker_topology` return normally with `post_errors`
incremented and the payload recorded. -/
theorem c7_witness :
    topological_inventory_data c7_net 1 c7_env c7_queries ["vms"] "sid"
      "dest" [] =
      .ok { posted := some { id := "sid", data := [("vms", [[("id", "1")]])] },
            post_successes := 0, post_errors := 1, get_errors := 0,
            queried := ["vms"] } ∧
    worker_topology c7_net 1 "sid" "dest" "b64" c7_info =
      .ok { posted := some { id := "sid", data := [("e", [[("id", "1")]])] },
            post_successes := 0, post_errors := 1, get_errors := 0 } := by
  constructor
  · exact ((c7_forward_never_raises c7_net 1 c7_env c7_queries ["vms"] "sid"
      "dest" [] [("vms", [[("id", "1")]])] ["vms"] Err.requestFailed c7_net 1
      "sid" "dest" "b64" c7_info [("e", [[("id", "1")]])]).1 rfl (by decide)).1
      (by decide)
  · exact (c7_forward_never_raises c7_net 1 c7_env c7_queries ["vms"] "sid"
      "dest" [] [("vms", [[("id", "1")]])] ["vms"] Err.requestFailed c7_net 1
      "sid" "dest" "b64" c7_info [("e", [[("id", "1")]])]).2 (by decide)
      (by decide)

/-- C8: tenant expansion.  In broadcast mode (`ALL_TENANTS`), `worker`
queries the internal tenant-discovery endpoint and builds exactly one
`Tenant` per discovered `external_tenant` id; otherwise it builds a single
`Tenant` from the job's `account_id`.  In both cases each `Tenant`'s
identity token, carried under the `x-rh-identity` header, is the base64
encoding of the serialized JSON object
`{"identity": {"account_number": "<id>"}}`. -/
theorem c8_tenant_expansion_identity (net : Net) (fuel : Nat) (env : Env)
    (queries : String → Option QuerySpec) (app_config : List String)
    (source_id dest : String) (acct_info : AcctInfo) (rows : List Row)
    (g : Nat) (tid : Row → String) (O : Tenant → TIOutcome) :
    (env.ALL_TENANTS = true →
      _collect_data net fuel (SERVICES_URL env (some "TOPOLOGICAL_INTERNAL"))
        "tenants" [("x-rh-identity", acct_info.b64_identity)] =
        .ok (rows, g) →
      (∀ r ∈ rows, lookupEntry r "external_tenant" = some (tid r)) →
      (∀ t ∈ rows.map (fun r => create_tenant (tid r)),
        topological_inventory_data net fuel env queries app_config source_id
          dest t.headers = .ok (O t)) →
      worker net fuel env queries app_config source_id dest acct_info =
        .ok { tenants := rows.map (fun r => create_tenant (tid r)),
              results := (rows.map (fun r => create_tenant (tid r))).map O,
              processed := (rows.map (fun r => create_tenant (tid r))).map
                Tenant.account_number }) ∧
    (env.ALL_TENANTS = false →
      (∀ t ∈ [create_tenant acct_info.account_id],
        topological_inventory_data net fuel env queries app_config source_id
          dest t.headers = .ok (O t)) →
      worker net fuel env queries app_config source_id dest acct_info =
        .ok { tenants := [create_tenant acct_info.account_id],
              results := [O (create_tenant acct_info.account_id)],
              processed := [acct_info.account_id] }) ∧
    (∀ a, create_tenant a =
      { account_number := a,
        headers := [("x-rh-identity",
          String.mk (base64Encode (utf8Bytes (json_dumps_identity a))))] }) := by
  refine ⟨?_, ?_, fun a => rfl⟩
  · intro hb hdisc hids hruns
    rw [worker]
    simp only [hb, if_true, hdisc, tenant_rows_spec tid rows hids,
      worker_loop_spec net fuel env queries app_config source_id dest O
        (rows.map (fun r => create_tenant (tid r))) hruns]
  · intro hb hruns
    rw [worker]
    simp only [hb, Bool.false_eq_true, if_false,
      worker_loop_spec net fuel env queries app_config source_id dest O
        [create_tenant acct_info.account_id] hruns]
    rfl

/-- C8 witness: broadcast discovery of the single tenant `42`; the expansion
yields exactly one `Tenant` whose identity token is the base64 encoding of
the identity JSON for account `42`. -/
theorem c8_witness :
    worker c8_net 1 c8_env c8_queries ["vms"] "sid" "dest"
      { b64_identity := "B", account_id := "7" } =
      .ok { tenants := [create_tenant "42"], results := [c8_o],
            processed := ["42"] } ∧
    (create_tenant "42").headers =
      [("x-rh-identity",
        "eyJpZGVudGl0eSI6IHsiYWNjb3VudF9udW1iZXIiOiAiNDIifX0=")] := by
  constructor
  · have h := (c8_tenant_expansion_identity c8_net 1 c8_env c8_queries
      ["vms"] "sid" "dest" { b64_identity := "B", account_id := "7" }
      [[("external_tenant", "42")]] 1 (fun _ => "42") (fun _ => c8_o)).1
      rfl (by decide)
      (by intro r hr; simp at hr; subst hr; rfl)
      (by intro t ht
          rcases List.mem_cons.mp ht with rfl | ht
          · decide
          · cases ht)
    simpa using h
  · decide

/-- C2 (the code, not the claim): `download_job` builds its thread with
`Thread(target=thread_mappings[name](info))`.  Python evaluates the
`target=` argument eagerly, so the selected worker pipeline runs to
completion inside the dispatch call itself (its effects are the
dispatcher's), the `Thread` target is the worker's return value `None`, and
the started thread runs nothing — the dispatch call therefore waits on the
whole pipeline instead of handing it to an independently scheduled task. -/
theorem c2_dispatch_runs_pipeline_synchronously {α : Type}
    (run : WorkerName → α) (name : String) (wn : WorkerName)
    (h : thread_mappings name = some wn) :
    download_job run name =
      .ok { dispatcherEffects := run wn, threadTarget := none,
            threadEffects := none } := by
  rw [download_job]
  simp only [h]

/-- C2 witness: dispatching `worker_topology` runs the pipeline effect (here
the abstract effect `1`) inside the dispatcher and starts a thread with no
target. -/
theorem c2_witness :
    thread_mappings "worker_topology" = some WorkerName.worker_topology ∧
    download_job c2_run "worker_topology" =
      .ok { dispatcherEffects := 1, threadTarget := none,
            threadEffects := none } :=
  ⟨rfl, c2_dispatch_runs_pipeline_synchronously c2_run "worker_topology"
    WorkerName.worker_topology rfl⟩

end Aiops
